import Mathlib

/-!
# Secure-Access-Portal — verification of the backend route handlers

A shallow embedding of the Express backend of the Secure-Access-Portal
repository.  The repository contains two structurally parallel variants:

* variant A — the "Admin/User" role model (`server/routes.ts` with the
  `User` model and the large middleware file), and
* variant B — the "Owner/Admin" role model (the parallel routes file with
  the `Admin` model).

Handlers are embedded as pure functions: the database is an explicit list
of documents, external HTTP calls are explicit outcome parameters, and the
session store is an explicit association list from tokens to session data.
`bcrypt` hashing/comparison is treated as an abstract black-box function
passed as a parameter, and `JSON.stringify` as an abstract key function.
-/

namespace SecurePortal

/-! ## Embedded definitions -/

/-- A JavaScript value as far as the handlers inspect it: a string, the
absent/undefined value, or some other (truthy, non-string) value. -/
inductive JsValue where
  | vstr (s : String)
  | vundef
  | vobj
deriving DecidableEq

/-- The ASCII core of the whitespace set recognised by
`String.prototype.trim`. -/
def isJsSpace (c : Char) : Bool :=
  c == ' ' || c == '\t' || c == '\n' || c == '\r' ||
    c == Char.ofNat 11 || c == Char.ofNat 12

/-- `String.prototype.trim` on the character list. -/
def jsTrimList (l : List Char) : List Char :=
  ((l.dropWhile isJsSpace).reverse.dropWhile isJsSpace).reverse

/-- `sanitizeString` from the variant-A routes module: non-strings map to
`""`; strings are trimmed and truncated to their first 500 characters
(`input.trim().slice(0, 500)`). -/
def sanitizeString : JsValue → String
  | .vstr s => ⟨(jsTrimList s.data).take 500⟩
  | _ => ""

/-- `typeof v === "string"`. -/
def isStringVal : JsValue → Bool
  | .vstr _ => true
  | _ => false

/-- JavaScript truthiness restricted to the values the handlers test. -/
def jsTruthy : JsValue → Bool
  | .vstr s => s != ""
  | .vundef => false
  | .vobj => true

/-- JavaScript strict equality `v === s` against a string literal. -/
def jsStrEq : JsValue → String → Bool
  | .vstr s, t => s == t
  | _, _ => false

inductive AccountStatus where
  | active
  | inactive
deriving DecidableEq

/-- A document of the variant-A `User` collection (the variant that carries
a feature set). -/
structure UserDoc where
  id : String
  username : String
  password : String
  name : String
  email : String
  status : AccountStatus
  features : Option (List String)
deriving DecidableEq

/-- A document of the variant-B `Admin` collection. -/
structure AdminDoc where
  id : String
  username : String
  password : String
  name : String
  email : String
  status : AccountStatus
deriving DecidableEq

/-- The session identity stored in `req.session.user`. -/
structure SessionUser where
  id : String
  username : String
  name : String
  role : String
deriving DecidableEq

/-- Environment-configured superuser credentials
(`ADMIN_USERNAME`/`ADMIN_PASSWORD`, resp. `OWNER_USERNAME`/`OWNER_PASSWORD`). -/
structure SuperCfg where
  username : String
  password : String
deriving DecidableEq

/-- The response of a login attempt: an error JSON body
`\x7bsuccess: false, error: ...\x7d` with an HTTP status, or the success body
carrying the session user. -/
inductive LoginResp where
  | err (status : Nat) (error : String)
  | ok (user : SessionUser)
deriving DecidableEq

/-- The request body `\x7busername, password, loginType\x7d`. -/
structure LoginBody where
  username : JsValue
  password : JsValue
  loginType : JsValue
deriving DecidableEq

/-- `User.findOne(\x7busername: String(username), status: "active"\x7d)`. -/
def findActiveUser (db : List UserDoc) (uname : String) : Option UserDoc :=
  db.find? (fun u => u.username == uname && u.status == .active)

/-- Variant-A login handler.  `cmp` is `bcrypt.compare` as a black box.
Sanitises the three body fields, requires all three to be truthy and the
raw username/password to be strings, then branches on the login type:
the `"admin"` type is checked against the environment superuser, the
`"user"` type against an active `User` document. -/
def loginA (cfg : SuperCfg) (db : List UserDoc) (cmp : String → String → Bool)
    (body : LoginBody) : LoginResp :=
  let username := sanitizeString body.username
  let password := sanitizeString body.password
  let loginType := sanitizeString body.loginType
  if username == "" || password == "" || loginType == "" then
    .err 400 "Missing credentials"
  else if !(isStringVal body.username) || !(isStringVal body.password) then
    .err 400 "Invalid input format"
  else if loginType == "admin" then
    if cfg.username == "" || cfg.password == "" then
      .err 401 "Invalid admin credentials"
    else if username == cfg.username && password == cfg.password then
      .ok ⟨"admin", cfg.username, "System Admin", "admin"⟩
    else
      .err 401 "Invalid admin credentials"
  else if loginType == "user" then
    match findActiveUser db username with
    | none => .err 401 "Invalid credentials or account inactive"
    | some u =>
      if cmp password u.password then
        .ok ⟨u.id, u.username, u.name, "user"⟩
      else
        .err 401 "Invalid credentials"
  else
    .err 400 "Invalid login type"

/-- `Admin.findOne(\x7busername, status: "active"\x7d)` with the raw request
value: a document matches only when the raw value strictly equals its
username string. -/
def findActiveAdmin (db : List AdminDoc) (uname : JsValue) : Option AdminDoc :=
  db.find? (fun a => jsStrEq uname a.username && a.status == .active)

/-- Variant-B login handler.  No sanitisation: truthiness of the raw body
fields is checked, the `"owner"` type is compared by strict string
equality against the environment superuser and the `"admin"` type against
an active `Admin` document.  `bcrypt.compare` on a non-string password
throws, which the route's catch turns into a 500. -/
def loginB (cfg : SuperCfg) (db : List AdminDoc) (cmp : String → String → Bool)
    (body : LoginBody) : LoginResp :=
  if !(jsTruthy body.username) || !(jsTruthy body.password) || !(jsTruthy body.loginType) then
    .err 400 "Missing credentials"
  else if jsStrEq body.loginType "owner" then
    if jsStrEq body.username cfg.username && jsStrEq body.password cfg.password then
      .ok ⟨"owner", cfg.username, "System Owner", "owner"⟩
    else
      .err 401 "Invalid owner credentials"
  else if jsStrEq body.loginType "admin" then
    match findActiveAdmin db body.username with
    | none => .err 401 "Invalid credentials or account inactive"
    | some a =>
      match body.password with
      | .vstr p =>
        if cmp p a.password then
          .ok ⟨a.id, a.username, a.name, "admin"⟩
        else
          .err 401 "Invalid credentials"
      | _ => .err 500 "Login failed"
  else
    .err 400 "Invalid login type"

/-- The server-side session store: token ↦ session data (the optional
`user` payload). -/
abbrev SessionStore := List (Nat × Option SessionUser)

/-- A token authenticates iff the store holds a session with a `user`
payload under it (`requireAuth` checks `req.session?.user`). -/
def authTok (store : SessionStore) (tok : Nat) : Option SessionUser :=
  match store.lookup tok with
  | some (some u) => some u
  | _ => none

/-- `req.session.regenerate` followed by the `req.session.user` assignment
in variant A: the old session is destroyed and a fresh-token session is
created carrying the user. -/
def regenerateWithUser (store : SessionStore) (old fresh : Nat) (u : SessionUser) :
    SessionStore :=
  (store.filter (fun p => p.1 != old)) ++ [(fresh, some u)]

/-- Variant B assigns `req.session.user` without regenerating: the session
is saved under the unchanged request token. -/
def saveWithUser (store : SessionStore) (tok : Nat) (u : SessionUser) : SessionStore :=
  (store.filter (fun p => p.1 != tok)) ++ [(tok, some u)]

/-- Variant-A login including its session effect.  Returns the response,
the updated store, and the token held by the client afterwards. -/
def loginSessionA (cfg : SuperCfg) (db : List UserDoc) (cmp : String → String → Bool)
    (store : SessionStore) (preTok fresh : Nat) (body : LoginBody) :
    LoginResp × SessionStore × Nat :=
  match loginA cfg db cmp body with
  | .ok u => (.ok u, regenerateWithUser store preTok fresh u, fresh)
  | r => (r, store, preTok)

/-- Variant-B login including its session effect: no regeneration. -/
def loginSessionB (cfg : SuperCfg) (db : List AdminDoc) (cmp : String → String → Bool)
    (store : SessionStore) (preTok : Nat) (body : LoginBody) :
    LoginResp × SessionStore × Nat :=
  match loginB cfg db cmp body with
  | .ok u => (.ok u, saveWithUser store preTok u, preTok)
  | r => (r, store, preTok)

/-- A JSON value, used for response payloads and external API data. -/
inductive Json where
  | jnull
  | jbool (b : Bool)
  | jnum (n : Int)
  | jstr (s : String)
  | jarr (items : List Json)
  | jobj (fields : List (String × Json))

/-- A mongoose document's field set, as produced by `toObject()`. -/
abbrev Doc := List (String × Json)

/-- Render an account status for storage. -/
def statusStr : AccountStatus → String
  | .active => "active"
  | .inactive => "inactive"

/-- The full stored field set of a variant-A `User` document, password
hash included. -/
def userDocFields (u : UserDoc) : Doc :=
  [("_id", .jstr u.id), ("username", .jstr u.username),
   ("password", .jstr u.password), ("name", .jstr u.name),
   ("email", .jstr u.email), ("status", .jstr (statusStr u.status)),
   ("features", match u.features with
     | some fs => .jarr (fs.map .jstr)
     | none => .jnull)]

/-- `.select("-password")` on a query, and `delete obj.password` on a
returned object: the named field is dropped from the document. -/
def removeField (d : Doc) (f : String) : Doc :=
  d.filter (fun p => p.1 != f)

/-- `GET /api/admin/users`: `User.find().select("-password")`. -/
def listUsersPayload (db : List UserDoc) : List Doc :=
  db.map (fun u => removeField (userDocFields u) "password")

/-- `POST /api/admin/users` response user object: `user.toObject()`
followed by `delete userResponse.password`. -/
def createUserPayload (u : UserDoc) : Doc :=
  removeField (userDocFields u) "password"

/-- `PUT /api/admin/users/:id` response user object: `user.toObject()`
followed by `delete userResponse.password`. -/
def updateUserPayload (u : UserDoc) : Doc :=
  removeField (userDocFields u) "password"

/-- `GET /api/admin/users/:id/details` user object:
`User.findById(id).select("-password")`. -/
def detailUserPayload (u : UserDoc) : Doc :=
  removeField (userDocFields u) "password"

/-- The closed feature vocabulary `ALL_FEATURES` from the models module. -/
def ALL_FEATURES : List String :=
  ["mobile", "email", "aadhar", "pan", "vehicle-info", "vehicle-challan", "ip"]

/-- The `GET /api/user/features` handler: the superuser sentinel, a missing
account, and an absent (`undefined`/`null`) feature field fall back to
`ALL_FEATURES`; otherwise the handler returns `user.features || ALL_FEATURES`,
and a present (even empty) array is truthy in JavaScript. -/
def getUserFeatures (db : List UserDoc) (sess : Option SessionUser) : List String :=
  match sess with
  | none => ALL_FEATURES
  | some su =>
    if su.id == "" || su.id == "admin" then ALL_FEATURES
    else
      match db.find? (fun d => d.id == su.id) with
      | none => ALL_FEATURES
      | some d =>
        match d.features with
        | none => ALL_FEATURES
        | some fs => fs

/-- A character of the class `[a-zA-Z0-9_]`. -/
def isWordChar (c : Char) : Bool :=
  ('a' ≤ c && c ≤ 'z') || ('A' ≤ c && c ≤ 'Z') || ('0' ≤ c && c ≤ '9') || c == '_'

/-- `isValidUsername`: the anchored pattern of 3 to 50 characters drawn
from `[a-zA-Z0-9_]`. -/
def isValidUsername (s : String) : Bool :=
  s.data.all isWordChar && decide (3 ≤ s.length) && decide (s.length ≤ 50)

/-- `isValidPassword`: length between 6 and 100 (the handler always passes
a string here). -/
def isValidPassword (s : String) : Bool :=
  decide (6 ≤ s.length) && decide (s.length ≤ 100)

/-- A character of the class `[^\s@]`. -/
def isEmailChar (c : Char) : Bool :=
  !(isJsSpace c) && c != '@'

/-- The anchored email pattern: one or more `[^\s@]` characters, `@`, one
or more `[^\s@]` characters, a dot, one or more `[^\s@]` characters.
Equivalently: the part before the first `@` is nonempty and `@`-and-space
free, the part after contains no `@` or space and has a dot that is
neither its first nor its last character. -/
def emailShape (l : List Char) : Bool :=
  let i := l.findIdx (fun c => c == '@')
  let loc := l.take i
  let dom := l.drop (i + 1)
  decide (i < l.length) && !loc.isEmpty && loc.all isEmailChar &&
    !dom.isEmpty && dom.all isEmailChar && (dom.drop 1).dropLast.contains '.'

/-- `isValidEmail`: the email pattern plus the 255-character bound. -/
def isValidEmail (s : String) : Bool :=
  emailShape s.data && decide (s.length ≤ 255)

/-- The schema default of the variant-A `features` field (note: without
`"ip"`). -/
def DEFAULT_FEATURES : List String :=
  ["mobile", "email", "aadhar", "pan", "vehicle-info", "vehicle-challan"]

/-- The `\x7busername, password, name, email, status\x7d` body of a creation
request. -/
structure CreateBody where
  username : JsValue
  password : JsValue
  name : JsValue
  email : JsValue
  status : JsValue
deriving DecidableEq

/-- Variant-A creation response. -/
inductive CreateResp where
  | err (status : Nat) (error : String)
  | created (doc : UserDoc)
deriving DecidableEq

/-- Variant-B creation response. -/
inductive CreateRespB where
  | err (status : Nat) (error : String)
  | created (doc : AdminDoc)
deriving DecidableEq

/-- The variant-A `POST /api/admin/users` handler: sanitises all fields,
requires the four mandatory ones, validates username pattern, password
length, email shape and name length, rejects on a username/email conflict,
and persists the hashed password (`hash` is `bcrypt.hash(·, 12)` as a
black box; `newId` is the database-assigned id).  The mongoose
`userSchema` re-validates at `save()` time (`minlength` 3 on the
username, 4 on the stored password hash, 2 on the name); a failure there
throws and the route's catch returns a 500.  The handler's own checks
subsume the username/name minima, so only the hash-length condition can
still fire. -/
def adminCreateUser (hash : String → String) (db : List UserDoc) (newId : String)
    (body : CreateBody) : CreateResp :=
  let username := sanitizeString body.username
  let password := sanitizeString body.password
  let name := sanitizeString body.name
  let email := sanitizeString body.email
  let status := sanitizeString body.status
  if username = "" ∨ password = "" ∨ name = "" ∨ email = "" then
    .err 400 "All fields are required"
  else if isValidUsername username = false then
    .err 400 "Username must be 3-50 alphanumeric characters or underscores"
  else if isValidPassword password = false then
    .err 400 "Password must be 6-100 characters"
  else if isValidEmail email = false then
    .err 400 "Invalid email format"
  else if name.length < 2 ∨ 100 < name.length then
    .err 400 "Name must be 2-100 characters"
  else if db.any (fun u => u.username == username || u.email == email) = true then
    .err 400 "Username or email already exists"
  else if username.length < 3 ∨ (hash password).length < 4 ∨ name.length < 2 then
    .err 500 "Failed to create user"
  else
    .created ⟨newId, username, hash password, name, email,
      if status = "inactive" then .inactive else .active,
      some DEFAULT_FEATURES⟩

/-- The variant-B `POST /api/owner/admins` handler: requires the four
mandatory fields to be truthy and checks the username/email conflict, but
performs no pattern, length or email-shape validation of its own before
hashing and persisting.  The mongoose `adminSchema` validates at `save()`
time: `minlength` 3 on the username, 4 on the stored password hash, 2 on
the name, and the status enum; any such failure (like a non-string field
value) throws and the route's catch returns a 500 — not a 400. -/
def ownerCreateAdmin (hash : String → String) (db : List AdminDoc) (newId : String)
    (body : CreateBody) : CreateRespB :=
  if ¬(jsTruthy body.username = true) ∨ ¬(jsTruthy body.password = true) ∨
      ¬(jsTruthy body.name = true) ∨ ¬(jsTruthy body.email = true) then
    .err 400 "All fields are required"
  else if db.any (fun a => jsStrEq body.username a.username ||
      jsStrEq body.email a.email) = true then
    .err 400 "Username or email already exists"
  else
    match body.username, body.password, body.name, body.email with
    | .vstr un, .vstr pw, .vstr nm, .vstr em =>
      if un.length < 3 ∨ (hash pw).length < 4 ∨ nm.length < 2 then
        .err 500 "Failed to create admin"
      else
        match (if jsTruthy body.status then body.status else .vstr "active") with
        | .vstr "active" => .created ⟨newId, un, hash pw, nm, em, .active⟩
        | .vstr "inactive" => .created ⟨newId, un, hash pw, nm, em, .inactive⟩
        | _ => .err 500 "Failed to create admin"
    | _, _, _, _ => .err 500 "Failed to create admin"

/-- The static datacenter/VPN provider dotted-prefix table of the variant-A
middleware, verbatim. -/
def vpnRanges : List String :=
  ["104.238", "104.131", "104.236", "138.68", "138.197", "142.93", "157.230", "159.65",
   "159.89", "161.35", "162.243", "164.90", "165.22", "165.227", "167.71", "167.172",
   "174.138", "178.62", "178.128", "188.166", "192.241", "198.199", "206.189", "209.97",
   "45.32", "45.63", "45.76", "45.77", "66.42", "95.179", "104.156", "108.61",
   "140.82", "149.28", "155.138", "207.246", "208.167", "209.250", "216.128", "217.69",
   "45.33", "45.56", "45.79", "50.116", "66.175", "69.164", "72.14", "74.207",
   "96.126", "97.107", "139.144", "139.162", "143.42", "170.187", "172.104", "172.105",
   "173.230", "173.255", "176.58", "178.79", "192.46", "194.195", "198.58", "212.71",
   "213.52", "3.0", "3.1", "3.2", "3.5", "3.6", "3.8", "3.9",
   "3.10", "3.11", "3.12", "3.13", "3.14", "3.15", "3.16", "3.17",
   "3.18", "3.19", "3.20", "3.21", "3.22", "3.23", "3.24", "3.25",
   "3.26", "3.27", "13.48", "13.49", "13.50", "13.51", "13.52", "13.53",
   "13.54", "13.55", "13.56", "13.57", "13.58", "13.112", "13.113", "13.114",
   "13.124", "13.125", "13.126", "13.127", "13.208", "13.209", "13.210", "13.211",
   "13.212", "13.213", "13.214", "13.228", "13.229", "13.230", "13.231", "13.232",
   "13.233", "13.234", "13.235", "13.236", "13.237", "13.238", "13.239", "13.244",
   "13.245", "13.246", "13.247", "13.248", "13.249", "13.250", "13.251", "18.130",
   "18.131", "18.132", "18.133", "18.134", "18.135", "18.136", "18.138", "18.139",
   "18.140", "18.141", "18.142", "18.143", "18.144", "18.156", "18.157", "18.158",
   "18.159", "18.162", "18.163", "18.166", "18.167", "18.168", "18.169", "18.170",
   "18.171", "18.175", "18.176", "18.177", "18.178", "18.179", "18.180", "18.181",
   "18.182", "18.183", "18.184", "18.185", "18.188", "18.189", "18.190", "18.191",
   "18.192", "18.193", "18.194", "18.195", "18.196", "18.197", "18.198", "18.199",
   "18.200", "18.201", "18.202", "18.203", "18.204", "18.205", "18.206", "18.207",
   "18.208", "18.209", "18.210", "18.211", "18.212", "18.213", "18.214", "18.215",
   "18.216", "18.217", "18.218", "18.219", "18.220", "18.221", "18.222", "18.223",
   "18.224", "18.225", "18.228", "18.229", "18.230", "18.231", "18.232", "18.233",
   "18.234", "18.235", "18.236", "18.237", "18.246", "18.252", "18.253", "34.192",
   "34.193", "34.194", "34.195", "34.196", "34.197", "34.198", "34.199", "34.200",
   "34.201", "34.202", "34.203", "34.204", "34.205", "34.206", "34.207", "34.208",
   "34.209", "34.210", "34.211", "34.212", "34.213", "34.214", "34.215", "34.216",
   "34.217", "34.218", "34.219", "34.220", "34.221", "34.222", "34.223", "34.224",
   "34.225", "34.226", "34.227", "34.228", "34.229", "34.230", "34.231", "34.232",
   "34.233", "34.234", "34.235", "34.236", "34.237", "34.238", "34.239", "34.240",
   "34.241", "34.242", "34.243", "34.244", "34.245", "34.246", "34.247", "34.248",
   "34.249", "34.250", "34.251", "34.252", "34.253", "34.254", "34.255", "34.64",
   "34.65", "34.66", "34.67", "34.68", "34.69", "34.70", "34.71", "34.72",
   "34.73", "34.74", "34.75", "34.76", "34.77", "34.78", "34.79", "34.80",
   "34.81", "34.82", "34.83", "34.84", "34.85", "34.86", "34.87", "34.88",
   "34.89", "34.90", "34.91", "34.92", "34.93", "34.94", "34.95", "34.96",
   "34.97", "34.98", "34.99", "34.100", "34.101", "34.102", "34.103", "34.104",
   "34.105", "34.106", "34.107", "34.108", "34.109", "34.110", "34.111", "34.112",
   "34.113", "34.114", "34.115", "34.116", "34.117", "34.118", "34.119", "34.120",
   "34.121", "34.122", "34.123", "34.124", "34.125", "34.126", "34.127", "34.128",
   "34.129", "34.130", "34.131", "34.132", "34.133", "34.134", "34.135", "34.136",
   "34.137", "34.138", "34.139", "34.140", "34.141", "34.142", "34.143", "34.144",
   "34.145", "34.146", "34.147", "34.148", "34.149", "34.150", "34.151", "34.152",
   "34.153", "34.154", "34.155", "34.156", "34.157", "34.158", "34.159", "34.160",
   "34.161", "34.162", "34.163", "34.164", "34.165", "34.166", "34.167", "34.168",
   "34.169", "34.170", "34.171", "34.172", "34.173", "34.174", "34.175", "34.176",
   "35.184", "35.185", "35.186", "35.187", "35.188", "35.189", "35.190", "35.191",
   "35.192", "35.193", "35.194", "35.195", "35.196", "35.197", "35.198", "35.199",
   "35.200", "35.201", "35.202", "35.203", "35.204", "35.205", "35.206", "35.207",
   "35.208", "35.209", "35.210", "35.211", "35.212", "35.213", "35.214", "35.215",
   "35.216", "35.217", "35.218", "35.219", "35.220", "35.221", "35.222", "35.223",
   "35.224", "35.225", "35.226", "35.227", "35.228", "35.229", "35.230", "35.231",
   "35.232", "35.233", "35.234", "35.235", "35.236", "35.237", "35.238", "35.239",
   "35.240", "35.241", "35.242", "35.243", "35.244", "35.245", "35.246", "35.247",
   "185.230", "185.231", "185.232", "185.233", "185.234", "185.235", "185.236", "185.237",
   "89.187", "89.238", "91.132", "92.119", "103.86", "146.70", "149.34", "154.47",
   "169.150", "185.93", "185.94", "185.95", "185.156", "185.159", "185.212", "193.29",
   "193.32", "193.56", "194.35", "194.36", "195.206", "196.240", "198.44", "198.54",
   "199.116", "212.102", "217.138", "5.9", "46.4", "78.46", "78.47", "88.198",
   "88.99", "94.130", "95.216", "116.202", "116.203", "128.140", "135.181", "136.243",
   "138.201", "142.132", "144.76", "148.251", "157.90", "159.69", "162.55", "167.233",
   "168.119", "176.9", "178.63", "188.40", "195.201", "213.133", "213.239", "51.38",
   "51.68", "51.75", "51.77", "51.79", "51.81", "51.83", "51.89", "51.91",
   "51.161", "51.178", "51.195", "51.210", "51.222", "54.36", "54.37", "54.38",
   "54.39", "57.128", "57.129", "91.121", "91.134", "92.222", "94.23", "135.125",
   "137.74", "139.99", "141.94", "141.95", "142.4", "142.44", "144.217", "145.239",
   "147.135", "149.56", "151.80", "158.69", "163.172", "164.132", "167.114", "176.31",
   "178.32", "178.33", "185.15", "188.165", "192.95", "192.99", "193.70", "195.154",
   "198.27", "198.50", "198.100", "198.245", "213.32", "213.186", "213.251", "217.182"]

/-- JavaScript `s.startsWith(p)`. -/
def jsStartsWith (s p : String) : Bool :=
  p.data.isPrefixOf s.data

/-- The private/loopback exemption at the top of `detectVPN`: loopback
addresses and the `192.168.`, `10.` and `172.` dotted string-prefixes are
always allowed through. -/
def isExemptIp (ip : String) : Bool :=
  ip == "::1" || ip == "127.0.0.1" || jsStartsWith ip "192.168." ||
    jsStartsWith ip "10." || jsStartsWith ip "172."

/-- Outcome of a request-gate middleware: pass the request on, or reject
it with a 403 JSON body carrying a machine-readable code. -/
inductive GateOutcome where
  | next
  | block403 (error : String) (code : String)
deriving DecidableEq

/-- The `detectVPN` middleware of variant A.  The resolved caller IP is
`realIp`; the short-lived reputation cache and the optional external
reputation API are explicit parameters (`api = none` models a missing key,
a timeout, or any other swallowed failure, all treated as allow). -/
def detectVPN (cache : String → Option Bool) (api : Option Bool) (realIp : String) :
    GateOutcome :=
  if isExemptIp realIp then .next
  else if vpnRanges.any (fun range => jsStartsWith realIp range) then
    .block403 "VPN/Proxy detected. Please disable VPN to continue." "VPN_DETECTED"
  else
    match cache realIp with
    | some isVpn =>
      if isVpn then
        .block403 "VPN/Proxy detected. Please disable VPN to continue." "VPN_DETECTED"
      else .next
    | none =>
      match api with
      | some true =>
        .block403 "VPN/Proxy detected. Please disable VPN to continue." "VPN_DETECTED"
      | _ => .next

/-- A search route as registered: `requireAuth, searchLimiter, detectVPN,
handler`.  The handler (whose outbound external calls are `handlerCalls`)
runs only when `detectVPN` passes the request on. -/
structure RouteOutcome where
  blockedCode : Option String
  outboundCalls : List String
deriving DecidableEq

/-- Composition of the VPN middleware with a search handler. -/
def gatedSearchRoute (cache : String → Option Bool) (api : Option Bool)
    (realIp : String) (handlerCalls : List String) : RouteOutcome :=
  match detectVPN cache api realIp with
  | .block403 _ code => ⟨some code, []⟩
  | .next => ⟨none, handlerCalls⟩

/-- Maximal run of leading decimal digits and the remainder. -/
def digitRun : List Char → Nat × List Char
  | [] => (0, [])
  | c :: cs =>
    if c.isDigit then
      let p := digitRun cs
      (p.1 + 1, p.2)
    else (0, c :: cs)

/-- One step of the anchored `ipv4Regex` matcher: a run of one to three
decimal digits, then — `n` counting the remaining dot separators — either
the end of the input or a dot and the next octet.  A digit cannot match a
dot, so the regex engine's greedy matching with backtracking coincides
with maximal-munch. -/
def ipv4Aux : Nat → List Char → Bool
  | 0, l =>
    (decide (1 ≤ (digitRun l).1) && decide ((digitRun l).1 ≤ 3)) &&
      (digitRun l).2.isEmpty
  | Nat.succ m, l =>
    (decide (1 ≤ (digitRun l).1) && decide ((digitRun l).1 ≤ 3)) &&
      match (digitRun l).2 with
      | c :: r => c == '.' && ipv4Aux m r
      | [] => false

/-- The `ipv4Regex` of the IP search handler: four runs of one to three
decimal digits separated by dots.  Octet values are not bounded by 255. -/
def ipv4Match (s : String) : Bool :=
  ipv4Aux 3 s.data

/-- A character of the class `[0-9a-fA-F]`. -/
def isHexChar (c : Char) : Bool :=
  ('0' ≤ c && c ≤ '9') || ('a' ≤ c && c ≤ 'f') || ('A' ≤ c && c ≤ 'F')

/-- Maximal run of leading hexadecimal digits and the remainder. -/
def hexRun : List Char → Nat × List Char
  | [] => (0, [])
  | c :: cs =>
    if isHexChar c then
      let p := hexRun cs
      (p.1 + 1, p.2)
    else (0, c :: cs)

/-- First alternative of `ipv6Regex`: eight runs of one to four hex digits
separated by single colons (`n` counts the remaining separators). -/
def ipv6Full : Nat → List Char → Bool
  | n, l =>
    (decide (1 ≤ (hexRun l).1) && decide ((hexRun l).1 ≤ 4)) &&
      match n, (hexRun l).2 with
      | 0, [] => true
      | Nat.succ m, c :: r => c == ':' && ipv6Full m r
      | _, _ => false

/-- The part before the `::` of the third `ipv6Regex` alternative: at most
`n` more groups, each a run of one to four hex digits followed by a
colon, consuming the whole input. -/
def ipv6HeadOK : Nat → List Char → Bool
  | _, [] => true
  | n, l =>
    (decide (1 ≤ (hexRun l).1) && decide ((hexRun l).1 ≤ 4)) &&
      match n, (hexRun l).2 with
      | Nat.succ m, c :: r => c == ':' && ipv6HeadOK m r
      | _, _ => false

/-- The part after the `::` of the third `ipv6Regex` alternative: a run of
one to four hex digits, then either the end or a colon and at most `n`
further groups. -/
def ipv6TailOK : Nat → List Char → Bool
  | n, l =>
    (decide (1 ≤ (hexRun l).1) && decide ((hexRun l).1 ≤ 4)) &&
      match n, (hexRun l).2 with
      | _, [] => true
      | Nat.succ m, c :: r => c == ':' && ipv6TailOK m r
      | _, _ => false

/-- Third alternative of `ipv6Regex`: some split of the input at a literal
`::`, with a valid head (up to six `hex:` groups) before it and a valid
tail (up to six `hex:` groups and a final hex run) after it.  The
existential split models the regex engine's backtracking over the
position of the `::`. -/
def ipv6AltOK (l : List Char) : Bool :=
  (List.range l.length).any (fun k =>
    ((l.drop k).take 2 == [':', ':']) &&
      ipv6HeadOK 6 (l.take k) && ipv6TailOK 6 (l.drop (k + 2)))

/-- The `ipv6Regex` of the IP search handler: full uncompressed form, the
bare `::`, or the (idiosyncratic) compressed form of the third
alternative. -/
def ipv6Match (s : String) : Bool :=
  ipv6Full 7 s.data || s == "::" || ipv6AltOK s.data

/-- The IP search handler up to its outbound geolocation call: sanitise
the query, reject a missing query, reject when both syntactic IP patterns
fail, otherwise proceed to call the provider with the sanitised literal. -/
inductive IpGateStep where
  | reject400 (error : String)
  | callProvider (ip : String)
deriving DecidableEq

/-- The validation part of `GET /api/search/ip` before any outbound call. -/
def ipSearchGate (raw : JsValue) : IpGateStep :=
  let ipAddress := sanitizeString raw
  if ipAddress = "" then
    .reject400 "IP address is required"
  else if (ipv4Match ipAddress || ipv6Match ipAddress) = false then
    .reject400 "Invalid IP address format"
  else
    .callProvider ipAddress

/-- Outcome of one outbound `fetch`: a rejected promise (transport
error), an abort (timeout), a non-2xx response, or a parsed JSON body. -/
inductive FetchRes where
  | failed
  | timedOut
  | notOk
  | ok (data : Json)

/-- JavaScript truthiness of a JSON value (`data ? 1 : 0`). -/
def jsonTruthy : Json → Bool
  | .jnull => false
  | .jbool b => b
  | .jnum n => n != 0
  | .jstr s => s != ""
  | .jarr _ => true
  | .jobj _ => true

/-- `Array.isArray(data) ? data.length : (data ? 1 : 0)`. -/
def resultCountOf : Json → Nat
  | .jarr items => items.length
  | d => if jsonTruthy d then 1 else 0

/-- One Search History Entry as written by `SearchHistory.create`. -/
structure HistoryEntry where
  userId : String
  userType : String
  searchType : String
  searchQuery : String
  resultCount : Nat
deriving DecidableEq

/-- A search response: an error status with message, a provider-derived
error body, 200 with data, or the vehicle handlers' 200 body with an
embedded failure message. -/
inductive SearchResp where
  | err (status : Nat) (error : String)
  | errProvider (status : Nat) (message : Json)
  | ok200 (data : Json)
  | ok200Fail (message : String)

/-- What a search route handler does: its response, the query strings of
the outbound external calls it dispatched, and the history entries it
appended. -/
structure HandlerResult where
  resp : SearchResp
  outbound : List String
  history : List HistoryEntry

/-- Which of the two parallel route files a request went through. -/
inductive Variant where
  | A
  | B
deriving DecidableEq

/-- The `searchType` enum of each variant's mongoose
`searchHistorySchema`.  Note that the Owner/Admin variant's enum has no
`"id"` entry although that variant registers `/api/search/id`. -/
def searchTypeEnum : Variant → List String
  | .A => ["mobile", "email", "aadhar", "pan", "alt", "vehicle_challan", "vehicle_info", "ip"]
  | .B => ["mobile", "email", "aadhar", "pan", "alt", "vehicle_challan", "vehicle_info"]

/-- The `userType` enum of each variant's `searchHistorySchema`. -/
def userTypeEnum : Variant → List String
  | .A => ["admin", "user"]
  | .B => ["owner", "admin"]

/-- Whether `SearchHistory.create` succeeds for an entry: the mongoose
schema validates `searchType` and `userType` against their enums; a value
outside the enum makes `create` throw. -/
def historyCreateOk (v : Variant) (e : HistoryEntry) : Bool :=
  (searchTypeEnum v).contains e.searchType && (userTypeEnum v).contains e.userType

/-- The shared single-call `searchHandler` (email / aadhar / pan in
variant A; email / id in variant B): rejects an empty query before
calling out, dispatches the raw query, maps an abort to 504 and any other
failure (including non-2xx, which is thrown and caught) to 500 without
logging.  On success with a session user it runs `SearchHistory.create`:
if the entry passes the schema enums one entry is appended, otherwise
`create` throws inside the `try` and the catch returns 500 with nothing
logged — which is what happens on every variant-B `/api/search/id`
request, since `"id"` is missing from that variant's enum. -/
def searchHandler (v : Variant) (stype : String) (user : Option SessionUser)
    (query : String) (res : FetchRes) : HandlerResult :=
  if query = "" then
    ⟨.err 400 "Query parameter required", [], []⟩
  else
    match res with
    | .failed => ⟨.err 500 "Search failed", [query], []⟩
    | .timedOut => ⟨.err 504 "Search request timed out", [query], []⟩
    | .notOk => ⟨.err 500 "Search failed", [query], []⟩
    | .ok data =>
      match user with
      | some u =>
        if historyCreateOk v ⟨u.id, u.role, stype, query, resultCountOf data⟩ = true then
          ⟨.ok200 data, [query], [⟨u.id, u.role, stype, query, resultCountOf data⟩]⟩
        else
          ⟨.err 500 "Search failed", [query], []⟩
      | none => ⟨.ok200 data, [query], []⟩

/-- Normalisation of one external mobile-search payload: arrays are
spread, objects are appended whole, primitives and null are dropped. -/
def normalizeToList : Json → List Json
  | .jarr items => items
  | .jobj fields => [.jobj fields]
  | _ => []

/-- The merged result list of the two mobile calls: a fulfilled 2xx call
contributes its normalised payload; a rejected, aborted or non-2xx call
contributes nothing (`Promise.allSettled` swallows the failure). -/
def mergedResults (r1 r2 : FetchRes) : List Json :=
  (match r1 with | .ok d => normalizeToList d | _ => []) ++
    (match r2 with | .ok d => normalizeToList d | _ => [])

/-- The deduplication filter of the mobile handler: keep `item` at `idx`
exactly when `arr.findIndex(i => stringify(i) === stringify(item))`
equals `idx`, i.e. when no earlier element has the same serialisation.
`stringify` abstracts `JSON.stringify`. -/
def jsUnique (stringify : Json → String) (arr : List Json) : List Json :=
  (arr.enum.filter
    (fun p => arr.findIdx (fun i => stringify i == stringify p.2) == p.1)).map Prod.snd

/-- The mobile search handler (`GET /api/search/mobile`, identical in both
variants): dispatches both calls with the raw query, tolerates any
combination of failures, deduplicates the merged list by serialisation,
and — whenever a session user is present — appends one history entry
whose count is the deduplicated length, even when both calls failed.
Its `SearchHistory.create` never throws on the schema enums: `"mobile"`
is in both variants' `searchType` enums and the session roles are in
both `userType` enums. -/
def mobileHandler (stringify : Json → String) (user : Option SessionUser)
    (query : String) (r1 r2 : FetchRes) : HandlerResult :=
  if query = "" then
    ⟨.err 400 "Query parameter required", [], []⟩
  else
    let uniq := jsUnique stringify (mergedResults r1 r2)
    match user with
    | some u =>
      ⟨.ok200 (.jarr uniq), [query, query],
        [⟨u.id, u.role, "mobile", query, uniq.length⟩]⟩
    | none => ⟨.ok200 (.jarr uniq), [query, query], []⟩

/-- The query string the vehicle-challan / vehicle-info handlers dispatch:
the sanitised query, or nothing when the sanitised query is empty. -/
def vehicleOutboundQuery (raw : JsValue) : Option String :=
  let vehicleNumber := sanitizeString raw
  if vehicleNumber = "" then none else some vehicleNumber

/-- The query string the IP search handler dispatches: the sanitised
literal, and only when the local validation passed. -/
def ipOutboundQuery (raw : JsValue) : Option String :=
  match ipSearchGate raw with
  | .callProvider ip => some ip
  | _ => none

/-- JavaScript property access `j.k` on a parsed JSON value: a field of
an object, `undefined` (here `none`) on everything else. -/
def getField : Json → String → Option Json
  | .jobj fields, k => (fields.find? (fun p => p.1 == k)).map Prod.snd
  | _, _ => none

/-- `x && x.status === 200` for a sub-object of the vehicle API payload. -/
def statusField200 (c : Json) : Bool :=
  match getField c "status" with
  | some (.jnum 200) => true
  | _ => false

/-- `rawData.challan` when `rawData.challan && rawData.challan.status === 200`. -/
def challanOf (rawData : Json) : Option Json :=
  match getField rawData "challan" with
  | some c => if statusField200 c then some c else none
  | none => none

/-- `rawData.vehicle` when `rawData.vehicle && rawData.vehicle.status === 200`. -/
def vehicleOf (rawData : Json) : Option Json :=
  match getField rawData "vehicle" with
  | some c => if statusField200 c then some c else none
  | none => none

/-- `rawData.puc` when `rawData.puc && rawData.puc.status === 200`. -/
def pucOf (rawData : Json) : Option Json :=
  match getField rawData "puc" with
  | some c => if statusField200 c then some c else none
  | none => none

/-- The optional echoed `vehicle_number` field of the filtered payload
(kept only when truthy). -/
def vehicleNumberField (rawData : Json) : List (String × Json) :=
  match getField rawData "vehicle_number" with
  | some vn => if jsonTruthy vn then [("vehicle_number", vn)] else []
  | none => []

/-- The optional `puc` field of the filtered vehicle-info payload. -/
def pucField (rawData : Json) : List (String × Json) :=
  match pucOf rawData with
  | some p => [("puc", p)]
  | none => []

/-- `filteredData.challan?.data?.data?.length || 0` (in JavaScript both
arrays and strings have a `.length`; anything else gives `undefined`,
defaulted to 0). -/
def challanResultCount (c : Json) : Nat :=
  match getField c "data" with
  | some d =>
    match getField d "data" with
    | some (.jarr items) => items.length
    | some (.jstr s2) => s2.length
    | _ => 0
  | none => 0

/-- The `GET /api/search/vehicle-challan` handler (variant A only):
sanitises the query, returns a 200 body with a generic embedded failure
message on an empty upstream result or any call failure, and appends a
history entry only when a session user is present and the payload carries
a `challan` sub-object with embedded status 200.  (`"vehicle_challan"`
and the variant-A roles are in the history schema enums, so its `create`
does not throw.) -/
def vehicleChallanHandler (user : Option SessionUser) (raw : JsValue)
    (res : FetchRes) : HandlerResult :=
  let vehicleNumber := sanitizeString raw
  if vehicleNumber = "" then
    ⟨.err 400 "There are some problem please contact developer", [], []⟩
  else
    match res with
    | .ok rawData =>
      match challanOf rawData with
      | none =>
        ⟨.ok200Fail "There are some problem please contact developer", [vehicleNumber], []⟩
      | some c =>
        match user with
        | some u =>
          ⟨.ok200 (.jobj ([("challan", c)] ++ vehicleNumberField rawData)), [vehicleNumber],
            [⟨u.id, u.role, "vehicle_challan", vehicleNumber, challanResultCount c⟩]⟩
        | none =>
          ⟨.ok200 (.jobj ([("challan", c)] ++ vehicleNumberField rawData)), [vehicleNumber], []⟩
    | _ =>
      ⟨.ok200Fail "There are some problem please contact developer", [vehicleNumber], []⟩

/-- The `GET /api/search/vehicle-info` handler (variant A only): same
shape as the challan handler, keyed on the `vehicle` sub-object, with
`puc` kept when valid and a fixed result count of 1. -/
def vehicleInfoHandler (user : Option SessionUser) (raw : JsValue)
    (res : FetchRes) : HandlerResult :=
  let vehicleNumber := sanitizeString raw
  if vehicleNumber = "" then
    ⟨.err 400 "There are some problem please contact developer", [], []⟩
  else
    match res with
    | .ok rawData =>
      match vehicleOf rawData with
      | none =>
        ⟨.ok200Fail "There are some problem please contact developer", [vehicleNumber], []⟩
      | some v2 =>
        match user with
        | some u =>
          ⟨.ok200 (.jobj ([("vehicle", v2)] ++ pucField rawData ++ vehicleNumberField rawData)),
            [vehicleNumber],
            [⟨u.id, u.role, "vehicle_info", vehicleNumber, 1⟩]⟩
        | none =>
          ⟨.ok200 (.jobj ([("vehicle", v2)] ++ pucField rawData ++ vehicleNumberField rawData)),
            [vehicleNumber], []⟩
    | _ =>
      ⟨.ok200Fail "There are some problem please contact developer", [vehicleNumber], []⟩

/-- `data.status === "fail"` in the IP search handler. -/
def ipStatusFail (d : Json) : Bool :=
  match getField d "status" with
  | some (.jstr "fail") => true
  | _ => false

/-- `data.status === "success" ? 1 : 0`. -/
def ipSuccessCount (d : Json) : Nat :=
  match getField d "status" with
  | some (.jstr "success") => 1
  | _ => 0

/-- `data.message || "Invalid IP address or lookup failed"`. -/
def providerFailMessage (d : Json) : Json :=
  match getField d "message" with
  | some m => if jsonTruthy m then m else .jstr "Invalid IP address or lookup failed"
  | none => .jstr "Invalid IP address or lookup failed"

/-- The full `GET /api/search/ip` handler (variant A only): the local
gate of `ipSearchGate`, then the provider call, with the provider's
`status: "fail"` translated into a 400 carrying the provider's message
and no history entry; a history entry is appended only for a session user
on a non-fail payload.  (`"ip"` is in the variant-A history enum.) -/
def ipSearchHandler (user : Option SessionUser) (raw : JsValue)
    (res : FetchRes) : HandlerResult :=
  match ipSearchGate raw with
  | .reject400 e => ⟨.err 400 e, [], []⟩
  | .callProvider ip =>
    match res with
    | .failed => ⟨.err 500 "IP lookup failed", [ip], []⟩
    | .timedOut => ⟨.err 504 "IP lookup request timed out", [ip], []⟩
    | .notOk => ⟨.err 500 "IP lookup failed", [ip], []⟩
    | .ok d =>
      if ipStatusFail d = true then
        ⟨.errProvider 400 (providerFailMessage d), [ip], []⟩
      else
        match user with
        | some u => ⟨.ok200 d, [ip], [⟨u.id, u.role, "ip", ip, ipSuccessCount d⟩]⟩
        | none => ⟨.ok200 d, [ip], []⟩

/-- A 501-character query string. -/
def longQuery : String := ⟨List.replicate 501 'a'⟩

/-! ## Theorems -/

theorem lookup_filter_ne_append {β : Type} (l : List (Nat × β)) (k : Nat)
    (rest : List (Nat × β)) :
    ((l.filter (fun p => p.1 != k)) ++ rest).lookup k = rest.lookup k := by
  induction l with
  | nil => simp
  | cons p l ih =>
    rcases p with ⟨a, b⟩
    by_cases h : a = k
    · simp [List.filter_cons, h, ih]
    · have h1 : ((a, b).1 != k) = true := by simp [h]
      have h2 : (k == a) = false := by simp [Ne.symm h]
      simp [List.filter_cons, h1, List.lookup_cons, h2, ih]

/-- **C1, counterexample.**  The claim states that the JSON bodies returned
for any two login-failure causes are equal.  In variant A with one active
account `alice`, an unknown username yields
`"Invalid credentials or account inactive"` while a wrong password for
`alice` yields `"Invalid credentials"`: the two 401 bodies differ, so the
response does distinguish the failure causes. -/
theorem c1_failed_login_bodies_differ :
    loginA ⟨"root", "rootpw"⟩
      [⟨"u1", "alice", "HASH", "Alice", "a@b.c", .active, none⟩]
      (fun p h => p == "pw" && h == "HASH")
      ⟨.vstr "bob", .vstr "pw", .vstr "user"⟩
      = .err 401 "Invalid credentials or account inactive" ∧
    loginA ⟨"root", "rootpw"⟩
      [⟨"u1", "alice", "HASH", "Alice", "a@b.c", .active, none⟩]
      (fun p h => p == "pw" && h == "HASH")
      ⟨.vstr "alice", .vstr "wrong", .vstr "user"⟩
      = .err 401 "Invalid credentials" ∧
    LoginResp.err 401 "Invalid credentials or account inactive" ≠
      LoginResp.err 401 "Invalid credentials" := by
  refine ⟨by decide, by decide, by decide⟩

/-- **C1 (amended).**  Every failed login attempt (unknown username,
inactive account, wrong password, wrong superuser credentials, missing
superuser configuration) returns HTTP status 401 in both variants, but the
generic message depends on the cause: database lookup failure (unknown or
inactive) yields "Invalid credentials or account inactive", a wrong
password on an active account yields "Invalid credentials", and superuser
failures yield "Invalid admin credentials" (variant A) resp.
"Invalid owner credentials" (variant B). -/
theorem c1_failed_login_statuses_and_messages
    (cfg ocfg : SuperCfg) (db : List UserDoc) (adb : List AdminDoc)
    (cmp : String → String → Bool) (u p : String)
    (hu : sanitizeString (.vstr u) = u) (hp : sanitizeString (.vstr p) = p)
    (hu0 : u ≠ "") (hp0 : p ≠ "") :
    (findActiveUser db u = none →
      loginA cfg db cmp ⟨.vstr u, .vstr p, .vstr "user"⟩ =
        .err 401 "Invalid credentials or account inactive") ∧
    (∀ d, findActiveUser db u = some d → cmp p d.password = false →
      loginA cfg db cmp ⟨.vstr u, .vstr p, .vstr "user"⟩ =
        .err 401 "Invalid credentials") ∧
    (cfg.username = "" ∨ cfg.password = "" →
      loginA cfg db cmp ⟨.vstr u, .vstr p, .vstr "admin"⟩ =
        .err 401 "Invalid admin credentials") ∧
    (¬(u = cfg.username ∧ p = cfg.password) →
      loginA cfg db cmp ⟨.vstr u, .vstr p, .vstr "admin"⟩ =
        .err 401 "Invalid admin credentials") ∧
    (¬(u = ocfg.username ∧ p = ocfg.password) →
      loginB ocfg adb cmp ⟨.vstr u, .vstr p, .vstr "owner"⟩ =
        .err 401 "Invalid owner credentials") ∧
    (findActiveAdmin adb (.vstr u) = none →
      loginB ocfg adb cmp ⟨.vstr u, .vstr p, .vstr "admin"⟩ =
        .err 401 "Invalid credentials or account inactive") ∧
    (∀ a, findActiveAdmin adb (.vstr u) = some a → cmp p a.password = false →
      loginB ocfg adb cmp ⟨.vstr u, .vstr p, .vstr "admin"⟩ =
        .err 401 "Invalid credentials") := by
  have hsu : sanitizeString (.vstr "user") = "user" := by decide
  have hsa : sanitizeString (.vstr "admin") = "admin" := by decide
  refine ⟨?_, ?_, ?_, ?_, ?_, ?_, ?_⟩
  · intro hfind
    simp [loginA, isStringVal, hu, hp, hsu, hu0, hp0, hfind]
  · intro d hfind hcmp
    simp [loginA, isStringVal, hu, hp, hsu, hu0, hp0, hfind, hcmp]
  · intro hcfg
    rcases hcfg with h | h <;>
      simp [loginA, isStringVal, hu, hp, hsa, hu0, hp0, h]
  · intro hne
    by_cases hc1 : cfg.username = ""
    · simp [loginA, isStringVal, hu, hp, hsa, hu0, hp0, hc1]
    · by_cases hc2 : cfg.password = ""
      · simp [loginA, isStringVal, hu, hp, hsa, hu0, hp0, hc1, hc2]
      · have : (u == cfg.username && p == cfg.password) = false := by
          rcases Decidable.em (u = cfg.username) with h1 | h1
          · rcases Decidable.em (p = cfg.password) with h2 | h2
            · exact absurd ⟨h1, h2⟩ hne
            · simp [h1, h2]
          · simp [h1]
        simp [loginA, isStringVal, hu, hp, hsa, hu0, hp0, hc1, hc2, this]
  · intro hne
    simp only [loginB, jsTruthy, jsStrEq, hu0, hp0]
    simp [hu0, hp0]
    exact fun h1 h2 => hne ⟨h1, h2⟩
  · intro hfind
    simp [loginB, jsTruthy, jsStrEq, hu0, hp0, hfind]
  · intro a hfind hcmp
    simp [loginB, jsTruthy, jsStrEq, hu0, hp0, hfind, hcmp]

/-- Witness for `c1_failed_login_statuses_and_messages` at a concrete
instance: an unknown username in variant A yields the inactive-or-unknown
message. -/
theorem c1_failed_login_statuses_and_messages_witness :
    loginA ⟨"root", "rp"⟩ [] (fun _ _ => false)
      ⟨.vstr "alice", .vstr "pw", .vstr "user"⟩ =
      .err 401 "Invalid credentials or account inactive" :=
  (c1_failed_login_statuses_and_messages ⟨"root", "rp"⟩ ⟨"own", "op"⟩ [] []
    (fun _ _ => false) "alice" "pw" (by decide) (by decide) (by decide)
    (by decide)).1 (by decide)

/-- **C2, counterexample.**  The claim quantifies over both role variants,
but the variant-B (owner) login handler never calls
`req.session.regenerate`: after a successful owner login from pre-login
token 5, the client token is still 5 and that pre-login token
authenticates the session user. -/
theorem c2_owner_login_does_not_regenerate :
    loginSessionB ⟨"own", "op"⟩ [] (fun _ _ => false) [] 5
      ⟨.vstr "own", .vstr "op", .vstr "owner"⟩ =
      (.ok ⟨"owner", "own", "System Owner", "owner"⟩,
        [(5, some ⟨"owner", "own", "System Owner", "owner"⟩)], 5) ∧
    authTok [(5, some ⟨"owner", "own", "System Owner", "owner"⟩)] 5 =
      some ⟨"owner", "own", "System Owner", "owner"⟩ :=
  ⟨by decide, by decide⟩

/-- **C2 (amended).**  Only variant A regenerates the session on a
successful login (for both the environment superuser and a database
account): the post-login token is the fresh store token, differs from the
pre-login token, and the pre-login token no longer authenticates.  In
variant B the session is saved under the unchanged pre-login token, which
therefore still authenticates. -/
theorem c2_regeneration_in_variantA_only
    (cfg ocfg : SuperCfg) (db : List UserDoc) (adb : List AdminDoc)
    (cmp : String → String → Bool) (store : SessionStore) (pre fresh : Nat)
    (body bodyB : LoginBody) (u uB : SessionUser)
    (hf : fresh ≠ pre)
    (h : loginA cfg db cmp body = .ok u)
    (hB : loginB ocfg adb cmp bodyB = .ok uB) :
    (loginSessionA cfg db cmp store pre fresh body).2.2 = fresh ∧
    (loginSessionA cfg db cmp store pre fresh body).2.2 ≠ pre ∧
    authTok (loginSessionA cfg db cmp store pre fresh body).2.1 pre = none ∧
    (loginSessionB ocfg adb cmp store pre bodyB).2.2 = pre ∧
    authTok (loginSessionB ocfg adb cmp store pre bodyB).2.1 pre = some uB := by
  have hA : loginSessionA cfg db cmp store pre fresh body =
      (.ok u, regenerateWithUser store pre fresh u, fresh) := by
    simp [loginSessionA, h]
  have hBs : loginSessionB ocfg adb cmp store pre bodyB =
      (.ok uB, saveWithUser store pre uB, pre) := by
    simp [loginSessionB, hB]
  refine ⟨by simp [hA], by simp [hA]; exact hf, ?_, by simp [hBs], ?_⟩
  · rw [hA]
    show authTok (regenerateWithUser store pre fresh u) pre = none
    unfold authTok regenerateWithUser
    rw [lookup_filter_ne_append]
    have hne : (pre == fresh) = false := by simp [Ne.symm hf]
    simp [List.lookup_cons, hne]
  · rw [hBs]
    show authTok (saveWithUser store pre uB) pre = some uB
    unfold authTok saveWithUser
    rw [lookup_filter_ne_append]
    simp [List.lookup_cons]

/-- Witness for `c2_regeneration_in_variantA_only`: concrete superuser
logins in both variants from pre-login token 5 with fresh token 9. -/
theorem c2_regeneration_in_variantA_only_witness :
    (loginSessionA ⟨"r", "q"⟩ [] (fun _ _ => false) [] 5 9
      ⟨.vstr "r", .vstr "q", .vstr "admin"⟩).2.2 = 9 :=
  (c2_regeneration_in_variantA_only ⟨"r", "q"⟩ ⟨"o", "w"⟩ [] []
    (fun _ _ => false) [] 5 9
    ⟨.vstr "r", .vstr "q", .vstr "admin"⟩ ⟨.vstr "o", .vstr "w", .vstr "owner"⟩
    ⟨"admin", "r", "System Admin", "admin"⟩ ⟨"owner", "o", "System Owner", "owner"⟩
    (by decide) (by decide) (by decide)).1

theorem not_mem_map_fst_removeField (d : Doc) (f : String) :
    f ∉ (removeField d f).map Prod.fst := by
  intro h
  rcases List.mem_map.mp h with ⟨p, hp, he⟩
  rcases List.mem_filter.mp hp with ⟨_, hne⟩
  simp [he] at hne

/-- **C4.**  For every account, the `password` field is absent from the
account object of each administrative response payload — the user list,
the create response, the update response, and the detail response — even
though the stored document itself carries a `password` field. -/
theorem c4_password_absent_from_admin_payloads (db : List UserDoc) (u : UserDoc) :
    (∀ d ∈ listUsersPayload db, "password" ∉ d.map Prod.fst) ∧
    "password" ∉ (createUserPayload u).map Prod.fst ∧
    "password" ∉ (updateUserPayload u).map Prod.fst ∧
    "password" ∉ (detailUserPayload u).map Prod.fst ∧
    "password" ∈ (userDocFields u).map Prod.fst := by
  refine ⟨?_, not_mem_map_fst_removeField _ _, not_mem_map_fst_removeField _ _,
    not_mem_map_fst_removeField _ _, ?_⟩
  · intro d hd
    rcases List.mem_map.mp hd with ⟨x, _, he⟩
    rw [← he]
    exact not_mem_map_fst_removeField _ _
  · simp [userDocFields]

/-- Witness for `c4_password_absent_from_admin_payloads`: the list payload
entry for a concrete stored user omits the password field. -/
theorem c4_password_absent_from_admin_payloads_witness :
    "password" ∉
      (removeField (userDocFields ⟨"u1", "alice", "H", "Alice", "a@b.c", .active, none⟩)
        "password").map Prod.fst :=
  (c4_password_absent_from_admin_payloads
    [⟨"u1", "alice", "H", "Alice", "a@b.c", .active, none⟩]
    ⟨"u1", "alice", "H", "Alice", "a@b.c", .active, none⟩).1
    (removeField (userDocFields ⟨"u1", "alice", "H", "Alice", "a@b.c", .active, none⟩)
      "password")
    (by simp [listUsersPayload])

/-- **C7, counterexample.**  The claim says an empty stored feature set
defaults to the full vocabulary; but an empty array is truthy in
JavaScript, so `user.features || ALL_FEATURES` evaluates to the empty
array and the endpoint returns `[]`. -/
theorem c7_empty_feature_list_not_defaulted :
    getUserFeatures [⟨"u1", "alice", "H", "Alice", "a@b.c", .active, some []⟩]
      (some ⟨"u1", "alice", "Alice", "user"⟩) = [] ∧
    ([] : List String) ≠ ALL_FEATURES :=
  ⟨by decide, by decide⟩

/-- **C7 (amended).**  The effective feature set equals the stored list
whenever the feature field is present — including when it is the empty
list — and defaults to the full vocabulary exactly when the session is
absent, the caller is the superuser sentinel, the account is missing, or
the stored feature field is absent. -/
theorem c7_features_default_only_when_field_absent
    (db : List UserDoc) (su : SessionUser) (d : UserDoc) :
    (getUserFeatures db none = ALL_FEATURES) ∧
    (su.id = "admin" → getUserFeatures db (some su) = ALL_FEATURES) ∧
    (su.id ≠ "" → su.id ≠ "admin" → db.find? (fun x => x.id == su.id) = none →
      getUserFeatures db (some su) = ALL_FEATURES) ∧
    (su.id ≠ "" → su.id ≠ "admin" → db.find? (fun x => x.id == su.id) = some d →
      d.features = none → getUserFeatures db (some su) = ALL_FEATURES) ∧
    (∀ fs, su.id ≠ "" → su.id ≠ "admin" →
      db.find? (fun x => x.id == su.id) = some d →
      d.features = some fs → getUserFeatures db (some su) = fs) := by
  refine ⟨rfl, ?_, ?_, ?_, ?_⟩
  · intro h
    simp [getUserFeatures, h]
  · intro h1 h2 hfind
    simp [getUserFeatures, h1, h2, hfind]
  · intro h1 h2 hfind hfeat
    simp [getUserFeatures, h1, h2, hfind, hfeat]
  · intro fs h1 h2 hfind hfeat
    simp [getUserFeatures, h1, h2, hfind, hfeat]

/-- Witness for `c7_features_default_only_when_field_absent`: a stored
singleton feature list is returned as stored. -/
theorem c7_features_default_only_when_field_absent_witness :
    getUserFeatures [⟨"u1", "alice", "H", "Alice", "a@b.c", .active, some ["ip"]⟩]
      (some ⟨"u1", "alice", "Alice", "user"⟩) = ["ip"] :=
  (c7_features_default_only_when_field_absent
    [⟨"u1", "alice", "H", "Alice", "a@b.c", .active, some ["ip"]⟩]
    ⟨"u1", "alice", "Alice", "user"⟩
    ⟨"u1", "alice", "H", "Alice", "a@b.c", .active, some ["ip"]⟩).2.2.2.2
    ["ip"] (by decide) (by decide) (by decide) (by decide)

/-- **C6, counterexample.**  The claim quantifies over both role variants,
but the variant-B (owner) creation handler performs none of the listed
format validations: a username containing a space (invalid for the
3–50 word-character pattern), a three-character password and a dot-free
email all pass — the mongoose schema only enforces minimum lengths, which
these inputs satisfy — and the record is created instead of rejected with
400. -/
theorem c6_owner_create_skips_format_validation :
    ownerCreateAdmin (fun s => s ++ "#h") [] "a1"
      ⟨.vstr "ab cd", .vstr "123", .vstr "xy", .vstr "nomail", .vundef⟩ =
      .created ⟨"a1", "ab cd", "123#h", "xy", "nomail", .active⟩ ∧
    isValidUsername "ab cd" = false ∧
    isValidPassword "123" = false ∧
    isValidEmail "nomail" = false :=
  ⟨by decide, by decide, by decide, by decide⟩

/-- **C6 (amended).**  Only the variant-A handler performs the full
validation chain (presence, username pattern 3–50 word characters,
password length 6–100, email shape, name length 2–100, uniqueness)
rejecting with 400, and it persists only the hashed password.  The
variant-B handler checks only presence and uniqueness; at `save()` time
the mongoose schema enforces its minimum lengths (username ≥ 3, stored
hash ≥ 4, name ≥ 2), whose violation yields a 500 — not the claimed
400 — and every other format validation (username charset and 50-cap,
password length 6–100, email shape, name 100-cap) is absent: such
records are created, with only the password hashed. -/
theorem c6_creation_validation
    (hash : String → String) (db : List UserDoc) (adb : List AdminDoc)
    (newId : String) (un pw nm em st : String)
    (hun : sanitizeString (.vstr un) = un) (hpw : sanitizeString (.vstr pw) = pw)
    (hnm : sanitizeString (.vstr nm) = nm) (hem : sanitizeString (.vstr em) = em)
    (hst : sanitizeString (.vstr st) = st) :
    (un = "" ∨ pw = "" ∨ nm = "" ∨ em = "" →
      adminCreateUser hash db newId ⟨.vstr un, .vstr pw, .vstr nm, .vstr em, .vstr st⟩ =
        .err 400 "All fields are required") ∧
    (un ≠ "" → pw ≠ "" → nm ≠ "" → em ≠ "" → isValidUsername un = false →
      adminCreateUser hash db newId ⟨.vstr un, .vstr pw, .vstr nm, .vstr em, .vstr st⟩ =
        .err 400 "Username must be 3-50 alphanumeric characters or underscores") ∧
    (un ≠ "" → pw ≠ "" → nm ≠ "" → em ≠ "" → isValidUsername un = true →
      isValidPassword pw = false →
      adminCreateUser hash db newId ⟨.vstr un, .vstr pw, .vstr nm, .vstr em, .vstr st⟩ =
        .err 400 "Password must be 6-100 characters") ∧
    (un ≠ "" → pw ≠ "" → nm ≠ "" → em ≠ "" → isValidUsername un = true →
      isValidPassword pw = true → isValidEmail em = false →
      adminCreateUser hash db newId ⟨.vstr un, .vstr pw, .vstr nm, .vstr em, .vstr st⟩ =
        .err 400 "Invalid email format") ∧
    (un ≠ "" → pw ≠ "" → nm ≠ "" → em ≠ "" → isValidUsername un = true →
      isValidPassword pw = true → isValidEmail em = true →
      nm.length < 2 ∨ 100 < nm.length →
      adminCreateUser hash db newId ⟨.vstr un, .vstr pw, .vstr nm, .vstr em, .vstr st⟩ =
        .err 400 "Name must be 2-100 characters") ∧
    (un ≠ "" → pw ≠ "" → nm ≠ "" → em ≠ "" → isValidUsername un = true →
      isValidPassword pw = true → isValidEmail em = true →
      2 ≤ nm.length → nm.length ≤ 100 →
      db.any (fun u => u.username == un || u.email == em) = true →
      adminCreateUser hash db newId ⟨.vstr un, .vstr pw, .vstr nm, .vstr em, .vstr st⟩ =
        .err 400 "Username or email already exists") ∧
    (un ≠ "" → pw ≠ "" → nm ≠ "" → em ≠ "" → isValidUsername un = true →
      isValidPassword pw = true → isValidEmail em = true →
      2 ≤ nm.length → nm.length ≤ 100 →
      db.any (fun u => u.username == un || u.email == em) = false →
      4 ≤ (hash pw).length →
      adminCreateUser hash db newId ⟨.vstr un, .vstr pw, .vstr nm, .vstr em, .vstr st⟩ =
        .created ⟨newId, un, hash pw, nm, em,
          if st = "inactive" then .inactive else .active, some DEFAULT_FEATURES⟩) ∧
    (un ≠ "" → pw ≠ "" → nm ≠ "" → em ≠ "" → isValidUsername un = true →
      isValidPassword pw = true → isValidEmail em = true →
      2 ≤ nm.length → nm.length ≤ 100 →
      db.any (fun u => u.username == un || u.email == em) = false →
      (hash pw).length < 4 →
      adminCreateUser hash db newId ⟨.vstr un, .vstr pw, .vstr nm, .vstr em, .vstr st⟩ =
        .err 500 "Failed to create user") ∧
    (un = "" ∨ pw = "" ∨ nm = "" ∨ em = "" →
      ownerCreateAdmin hash adb newId ⟨.vstr un, .vstr pw, .vstr nm, .vstr em, .vundef⟩ =
        .err 400 "All fields are required") ∧
    (un ≠ "" → pw ≠ "" → nm ≠ "" → em ≠ "" →
      adb.any (fun a => jsStrEq (.vstr un) a.username || jsStrEq (.vstr em) a.email) = true →
      ownerCreateAdmin hash adb newId ⟨.vstr un, .vstr pw, .vstr nm, .vstr em, .vundef⟩ =
        .err 400 "Username or email already exists") ∧
    (un ≠ "" → pw ≠ "" → nm ≠ "" → em ≠ "" →
      adb.any (fun a => jsStrEq (.vstr un) a.username || jsStrEq (.vstr em) a.email) = false →
      un.length < 3 ∨ (hash pw).length < 4 ∨ nm.length < 2 →
      ownerCreateAdmin hash adb newId ⟨.vstr un, .vstr pw, .vstr nm, .vstr em, .vundef⟩ =
        .err 500 "Failed to create admin") ∧
    (un ≠ "" → pw ≠ "" → nm ≠ "" → em ≠ "" →
      adb.any (fun a => jsStrEq (.vstr un) a.username || jsStrEq (.vstr em) a.email) = false →
      3 ≤ un.length → 4 ≤ (hash pw).length → 2 ≤ nm.length →
      ownerCreateAdmin hash adb newId ⟨.vstr un, .vstr pw, .vstr nm, .vstr em, .vundef⟩ =
        .created ⟨newId, un, hash pw, nm, em, .active⟩) := by
  refine ⟨?_, ?_, ?_, ?_, ?_, ?_, ?_, ?_, ?_, ?_, ?_, ?_⟩
  · intro h
    simp [adminCreateUser, hun, hpw, hnm, hem, hst]
    rcases h with h | h | h | h <;> simp [h]
  · intro h1 h2 h3 h4 h5
    simp [adminCreateUser, hun, hpw, hnm, hem, hst, h1, h2, h3, h4, h5]
  · intro h1 h2 h3 h4 h5 h6
    simp [adminCreateUser, hun, hpw, hnm, hem, hst, h1, h2, h3, h4, h5, h6]
  · intro h1 h2 h3 h4 h5 h6 h7
    simp [adminCreateUser, hun, hpw, hnm, hem, hst, h1, h2, h3, h4, h5, h6, h7]
  · intro h1 h2 h3 h4 h5 h6 h7 h8
    simp [adminCreateUser, hun, hpw, hnm, hem, hst, h1, h2, h3, h4, h5, h6, h7]
    rcases h8 with h8 | h8
    · simp [h8]
    · intro hc
      omega
  · intro h1 h2 h3 h4 h5 h6 h7 h8 h9 h10
    have hn1 : ¬(nm.length < 2) := by omega
    have hn2 : ¬(100 < nm.length) := by omega
    simp [adminCreateUser, hun, hpw, hnm, hem, hst, h1, h2, h3, h4, h5, h6, h7,
      hn1, hn2, h10]
  · intro h1 h2 h3 h4 h5 h6 h7 h8 h9 h10 h11
    have h5c := h5
    simp only [isValidUsername, Bool.and_eq_true, decide_eq_true_eq] at h5c
    have hn1 : ¬(nm.length < 2) := by omega
    have hn2 : ¬(100 < nm.length) := by omega
    have hs1 : ¬(un.length < 3) := by omega
    have hs2 : ¬((hash pw).length < 4) := by omega
    have hs3 : ¬(nm.length < 2) := hn1
    simp [adminCreateUser, hun, hpw, hnm, hem, hst, h1, h2, h3, h4, h5, h6, h7,
      hn1, hn2, h10, hs1, hs2, hs3]
  · intro h1 h2 h3 h4 h5 h6 h7 h8 h9 h10 h11
    have hn1 : ¬(nm.length < 2) := by omega
    have hn2 : ¬(100 < nm.length) := by omega
    simp [adminCreateUser, hun, hpw, hnm, hem, hst, h1, h2, h3, h4, h5, h6, h7,
      hn1, hn2, h10, h11]
  · intro h
    simp [ownerCreateAdmin, jsTruthy]
    rcases h with h | h | h | h <;> simp [h]
  · intro h1 h2 h3 h4 h5
    simp [ownerCreateAdmin, jsTruthy, h1, h2, h3, h4, h5]
  · intro h1 h2 h3 h4 h5 hfail
    rcases hfail with hf | hf | hf <;>
      simp [ownerCreateAdmin, jsTruthy, h1, h2, h3, h4, h5, hf]
  · intro h1 h2 h3 h4 h5 hl3 hl4 hl2
    have hs1 : ¬(un.length < 3) := by omega
    have hs2 : ¬((hash pw).length < 4) := by omega
    have hs3 : ¬(nm.length < 2) := by omega
    simp [ownerCreateAdmin, jsTruthy, h1, h2, h3, h4, h5, hs1, hs2, hs3]

/-- Witness for `c6_creation_validation`: a fully valid variant-A creation
persists the hashed password. -/
theorem c6_creation_validation_witness :
    adminCreateUser (fun s => s ++ "#h") [] "u9"
      ⟨.vstr "alice_01", .vstr "secret99", .vstr "Alice", .vstr "a@b.co", .vstr ""⟩ =
      .created ⟨"u9", "alice_01", "secret99#h", "Alice", "a@b.co", .active,
        some DEFAULT_FEATURES⟩ := by
  have h := (c6_creation_validation (fun s => s ++ "#h") [] [] "u9"
    "alice_01" "secret99" "Alice" "a@b.co" ""
    (by decide) (by decide) (by decide) (by decide) (by decide)).2.2.2.2.2.2.1
    (by decide) (by decide) (by decide) (by decide) (by decide) (by decide)
    (by decide) (by decide) (by decide) (by decide) (by decide)
  simpa using h

/-- No blocklist entry collides with the non-`172.` exemptions: no entry
is a prefix of `"::1"` or `"127.0.0.1"`, and no entry is
prefix-comparable with `"192.168."` or `"10."`. -/
theorem vpnRanges_exemption_disjoint :
    vpnRanges.all (fun r =>
      !(r.data.isPrefixOf ("::1".data)) &&
      !(r.data.isPrefixOf ("127.0.0.1".data)) &&
      !(r.data.isPrefixOf ("192.168.".data)) &&
      !(("192.168.".data).isPrefixOf r.data) &&
      !(r.data.isPrefixOf ("10.".data)) &&
      !(("10.".data).isPrefixOf r.data)) = true := by
  set_option maxRecDepth 40000 in decide

/-- **C5, counterexample.**  The claim quantifies over every entry of the
static table, explicitly including `"172.104"` and `"172.105"`; but the
private-range exemption `realIp.startsWith("172.")` runs first, so an IP
matching the blocklist entry `"172.104"` is passed through, not rejected. -/
theorem c5_shadowed_172_entries_not_blocked :
    "172.104" ∈ vpnRanges ∧
    jsStartsWith "172.104.9.9" "172.104" = true ∧
    detectVPN (fun _ => none) none "172.104.9.9" = .next ∧
    gatedSearchRoute (fun _ => none) none "172.104.9.9" ["external-call"] =
      ⟨none, ["external-call"]⟩ :=
  ⟨by decide, by decide, by decide, by decide⟩

/-- **C5 (amended).**  For every entry of the static table, a caller IP
whose dotted string-prefix matches the entry is rejected with 403 and code
`VPN_DETECTED` before any external search call occurs — except the
entries shadowed by the private-range exemption: any IP beginning with
`"172."` (which covers exactly the `"172.104"` and `"172.105"` entries)
is exempted before the blocklist is consulted. -/
theorem c5_static_blocklist_rejects_before_external_call
    (cache : String → Option Bool) (api : Option Bool)
    (ip r : String) (handlerCalls : List String)
    (hr : r ∈ vpnRanges) (hpre : jsStartsWith ip r = true)
    (h172 : jsStartsWith ip "172." = false) :
    detectVPN cache api ip =
      .block403 "VPN/Proxy detected. Please disable VPN to continue." "VPN_DETECTED" ∧
    gatedSearchRoute cache api ip handlerCalls = ⟨some "VPN_DETECTED", []⟩ := by
  have hfacts := List.all_eq_true.mp vpnRanges_exemption_disjoint r hr
  simp only [Bool.and_eq_true, Bool.not_eq_eq_eq_not, Bool.not_true] at hfacts
  obtain ⟨⟨⟨⟨⟨f1, f2⟩, f3⟩, f4⟩, f5⟩, f6⟩ := hfacts
  have hrp : r.data <+: ip.data := List.isPrefixOf_iff_prefix.mp hpre
  have hip1 : (ip == "::1") = false := by
    apply beq_eq_false_iff_ne.mpr
    intro e
    rw [e] at hrp
    rw [ List.isPrefixOf_iff_prefix.mpr hrp] at f1
    exact absurd f1 (by decide)
  have hip2 : (ip == "127.0.0.1") = false := by
    apply beq_eq_false_iff_ne.mpr
    intro e
    rw [e] at hrp
    rw [ List.isPrefixOf_iff_prefix.mpr hrp] at f2
    exact absurd f2 (by decide)
  have hip3 : jsStartsWith ip "192.168." = false := by
    by_contra hne
    have hb : jsStartsWith ip "192.168." = true := by
      cases hx : jsStartsWith ip "192.168."
      · exact absurd hx hne
      · rfl
    have hq : ("192.168.".data) <+: ip.data := List.isPrefixOf_iff_prefix.mp hb
    rcases List.prefix_or_prefix_of_prefix hrp hq with hc | hc
    · rw [ List.isPrefixOf_iff_prefix.mpr hc] at f3
      exact absurd f3 (by decide)
    · rw [ List.isPrefixOf_iff_prefix.mpr hc] at f4
      exact absurd f4 (by decide)
  have hip4 : jsStartsWith ip "10." = false := by
    by_contra hne
    have hb : jsStartsWith ip "10." = true := by
      cases hx : jsStartsWith ip "10."
      · exact absurd hx hne
      · rfl
    have hq : ("10.".data) <+: ip.data := List.isPrefixOf_iff_prefix.mp hb
    rcases List.prefix_or_prefix_of_prefix hrp hq with hc | hc
    · rw [ List.isPrefixOf_iff_prefix.mpr hc] at f5
      exact absurd f5 (by decide)
    · rw [ List.isPrefixOf_iff_prefix.mpr hc] at f6
      exact absurd f6 (by decide)
  have hex : isExemptIp ip = false := by
    simp [isExemptIp, hip1, hip2, hip3, hip4, h172]
  have hany : vpnRanges.any (fun range => jsStartsWith ip range) = true :=
    List.any_eq_true.mpr ⟨r, hr, hpre⟩
  constructor
  · simp [detectVPN, hex, hany]
  · simp [gatedSearchRoute, detectVPN, hex, hany]

/-- Witness for `c5_static_blocklist_rejects_before_external_call`: a
DigitalOcean-prefixed caller is rejected and the handler never runs. -/
theorem c5_static_blocklist_witness :
    detectVPN (fun _ => none) none "104.238.7.7" =
      .block403 "VPN/Proxy detected. Please disable VPN to continue." "VPN_DETECTED" :=
  (c5_static_blocklist_rejects_before_external_call (fun _ => none) none
    "104.238.7.7" "104.238" ["external-call"]
    (by decide) (by decide) (by decide)).1

/-- **C3, counterexample.**  The claim says `"999.999.999.999"` is
rejected with 400 before any outbound call, but the handler's IPv4
pattern allows any one-to-three-digit octet, so that literal passes local
validation and proceeds to the provider call.  (`"not-an-ip"` is indeed
rejected locally.) -/
theorem c3_unbounded_octets_reach_provider :
    ipSearchGate (.vstr "999.999.999.999") = .callProvider "999.999.999.999" ∧
    ipSearchGate (.vstr "999.999.999.999") ≠ .reject400 "Invalid IP address format" ∧
    ipSearchGate (.vstr "not-an-ip") = .reject400 "Invalid IP address format" :=
  ⟨by decide, by decide, by decide⟩

theorem digitRun_append (g r : List Char) (hg : ∀ c ∈ g, c.isDigit = true)
    (hr : ∀ c, r.head? = some c → c.isDigit = false) :
    digitRun (g ++ r) = (g.length, r) := by
  induction g with
  | nil =>
    cases r with
    | nil => rfl
    | cons c cs => simp [digitRun, hr c rfl]
  | cons c cs ih =>
    have hc : c.isDigit = true := hg c (List.mem_cons_self _ _)
    have := ih (fun x hx => hg x (List.mem_cons_of_mem _ hx))
    simp [digitRun, hc, this]

theorem ipv4Aux_step (m : Nat) (g r : List Char) (hne : g ≠ [])
    (hlen : g.length ≤ 3) (hdig : ∀ c ∈ g, c.isDigit = true) :
    ipv4Aux (m + 1) (g ++ '.' :: r) = ipv4Aux m r := by
  have hd : digitRun (g ++ '.' :: r) = (g.length, '.' :: r) := by
    apply digitRun_append g _ hdig
    intro c hc
    simp at hc
    rw [← hc]
    decide
  have h1 : 1 ≤ g.length := by
    cases g with
    | nil => exact absurd rfl hne
    | cons a as => simp
  rw [ipv4Aux, hd]
  simp [h1, hlen]

theorem ipv4Aux_last (g : List Char) (hne : g ≠ [])
    (hlen : g.length ≤ 3) (hdig : ∀ c ∈ g, c.isDigit = true) :
    ipv4Aux 0 g = true := by
  have hd : digitRun (g ++ []) = (g.length, []) := by
    apply digitRun_append g _ hdig
    intro c hc
    simp at hc
  rw [List.append_nil] at hd
  have h1 : 1 ≤ g.length := by
    cases g with
    | nil => exact absurd rfl hne
    | cons a as => simp
  rw [ipv4Aux, hd]
  simp [h1, hlen]

/-- **C3 (amended).**  A query failing both syntactic patterns — such as
`"not-an-ip"` — is rejected with 400 before any outbound call, and every
dotted-quad literal of one to three digits per octet (`"999.999.999.999"`
included: octets are not bounded by 255) passes the local validation and
proceeds to the provider call. -/
theorem c3_ip_gate_validation
    (g1 g2 g3 g4 : List Char)
    (h1 : g1 ≠ [] ∧ g1.length ≤ 3 ∧ ∀ c ∈ g1, c.isDigit = true)
    (h2 : g2 ≠ [] ∧ g2.length ≤ 3 ∧ ∀ c ∈ g2, c.isDigit = true)
    (h3 : g3 ≠ [] ∧ g3.length ≤ 3 ∧ ∀ c ∈ g3, c.isDigit = true)
    (h4 : g4 ≠ [] ∧ g4.length ≤ 3 ∧ ∀ c ∈ g4, c.isDigit = true) :
    ipv4Match ⟨g1 ++ '.' :: (g2 ++ '.' :: (g3 ++ '.' :: g4))⟩ = true ∧
    (∀ s : String, sanitizeString (.vstr s) = s → s ≠ "" →
      (ipv4Match s || ipv6Match s) = true →
      ipSearchGate (.vstr s) = .callProvider s) ∧
    (∀ s : String, sanitizeString (.vstr s) = s → s ≠ "" →
      (ipv4Match s || ipv6Match s) = false →
      ipSearchGate (.vstr s) = .reject400 "Invalid IP address format") := by
  refine ⟨?_, ?_, ?_⟩
  · show ipv4Aux 3 (g1 ++ '.' :: (g2 ++ '.' :: (g3 ++ '.' :: g4))) = true
    rw [ipv4Aux_step 2 g1 _ h1.1 h1.2.1 h1.2.2]
    rw [ipv4Aux_step 1 g2 _ h2.1 h2.2.1 h2.2.2]
    rw [ipv4Aux_step 0 g3 _ h3.1 h3.2.1 h3.2.2]
    exact ipv4Aux_last g4 h4.1 h4.2.1 h4.2.2
  · intro s hs hne hmatch
    simp [ipSearchGate, hs, hne, hmatch]
  · intro s hs hne hmatch
    simp [ipSearchGate, hs, hne, hmatch]

/-- Witness for `c3_ip_gate_validation`: the dotted quad `9.99.999.0`
passes local validation, and the gate forwards it to the provider. -/
theorem c3_ip_gate_validation_witness :
    ipv4Match ⟨['9'] ++ '.' :: (['9', '9'] ++ '.' :: (['9', '9', '9'] ++ '.' :: ['0']))⟩ = true ∧
    ipSearchGate (.vstr "1.2.3.4") = .callProvider "1.2.3.4" := by
  have h := c3_ip_gate_validation ['9'] ['9', '9'] ['9', '9', '9'] ['0']
    ⟨by decide, by decide, by decide⟩ ⟨by decide, by decide, by decide⟩
    ⟨by decide, by decide, by decide⟩ ⟨by decide, by decide, by decide⟩
  exact ⟨h.1, h.2.1 "1.2.3.4" (by decide) (by decide) (by decide)⟩

theorem le_fst_of_mem_enumFrom {n : Nat} {l : List Json} {q : Nat × Json}
    (h : q ∈ l.enumFrom n) : n ≤ q.1 := by
  induction l generalizing n with
  | nil => simp at h
  | cons a as ih =>
    simp only [List.enumFrom] at h
    rcases List.mem_cons.mp h with h | h
    · rw [h]
    · exact Nat.le_of_succ_le (ih h)

theorem pairwise_fst_lt_enumFrom (n : Nat) (l : List Json) :
    (l.enumFrom n).Pairwise (fun p q => p.1 < q.1) := by
  induction l generalizing n with
  | nil => simp
  | cons a as ih =>
    simp only [List.enumFrom]
    refine List.Pairwise.cons ?_ (ih (n + 1))
    intro q hq
    exact Nat.lt_of_succ_le (le_fst_of_mem_enumFrom hq)

theorem jsUnique_sublist (stringify : Json → String) (arr : List Json) :
    (jsUnique stringify arr).Sublist arr := by
  have h1 : (arr.enum.filter
      (fun p => arr.findIdx (fun i => stringify i == stringify p.2) == p.1)).Sublist
      arr.enum := List.filter_sublist _
  have h2 := h1.map Prod.snd
  rw [show arr.enum.map Prod.snd = arr from List.enumFrom_map_snd 0 arr] at h2
  exact h2

theorem jsUnique_map_nodup (stringify : Json → String) (arr : List Json) :
    ((jsUnique stringify arr).map stringify).Nodup := by
  unfold jsUnique
  rw [List.map_map]
  have hpw : (arr.enum.filter
      (fun p => arr.findIdx (fun i => stringify i == stringify p.2) == p.1)).Pairwise
      (fun p q => p.1 < q.1) :=
    (pairwise_fst_lt_enumFrom 0 arr).filter _
  have hne : (arr.enum.filter
      (fun p => arr.findIdx (fun i => stringify i == stringify p.2) == p.1)).Pairwise
      (fun p q => stringify p.2 ≠ stringify q.2) := by
    refine hpw.imp_of_mem ?_
    intro p q hp hq hlt
    intro heq
    have hp' := (List.mem_filter.mp hp).2
    have hq' := (List.mem_filter.mp hq).2
    have hp1 : arr.findIdx (fun i => stringify i == stringify p.2) = p.1 :=
      eq_of_beq hp'
    have hq1 : arr.findIdx (fun i => stringify i == stringify q.2) = q.1 :=
      eq_of_beq hq'
    have hfun : (fun i => stringify i == stringify p.2) =
        (fun i => stringify i == stringify q.2) := by
      funext i
      rw [heq]
    rw [hfun, hq1] at hp1
    exact Nat.lt_irrefl _ (hp1 ▸ hlt)
  exact List.Pairwise.map _ (fun a b h => h) hne

theorem mem_map_jsUnique (stringify : Json → String) (arr : List Json)
    (s : String) (hs : s ∈ arr.map stringify) :
    s ∈ (jsUnique stringify arr).map stringify := by
  rcases List.mem_map.mp hs with ⟨a, ha, hfa⟩
  have hex : ∃ x ∈ arr, (stringify x == s) = true := ⟨a, ha, by rw [hfa]; simp⟩
  have hlt : arr.findIdx (fun i => stringify i == s) < arr.length :=
    List.findIdx_lt_length_of_exists hex
  have hpj : (stringify (arr[arr.findIdx (fun i => stringify i == s)]) == s) = true :=
    @List.findIdx_getElem Json (fun i => stringify i == s) arr hlt
  have hfj : stringify (arr[arr.findIdx (fun i => stringify i == s)]) = s :=
    eq_of_beq hpj
  have hmem : (arr.findIdx (fun i => stringify i == s),
      arr[arr.findIdx (fun i => stringify i == s)]) ∈ arr.enum := by
    rw [List.mk_mem_enum_iff_getElem?]
    exact List.getElem?_eq_getElem hlt
  have hkeep : (arr.findIdx (fun i =>
        stringify i == stringify (arr[arr.findIdx (fun i => stringify i == s)])) ==
      arr.findIdx (fun i => stringify i == s)) = true := by
    have hfun : (fun i => stringify i ==
        stringify (arr[arr.findIdx (fun i => stringify i == s)])) =
        (fun i => stringify i == s) := by
      funext i
      rw [hfj]
    rw [hfun]
    simp
  have hfmem : (arr.findIdx (fun i => stringify i == s),
      arr[arr.findIdx (fun i => stringify i == s)]) ∈ arr.enum.filter
      (fun p => arr.findIdx (fun i => stringify i == stringify p.2) == p.1) :=
    List.mem_filter.mpr ⟨hmem, hkeep⟩
  have hj : arr[arr.findIdx (fun i => stringify i == s)] ∈ jsUnique stringify arr := by
    unfold jsUnique
    exact List.mem_map.mpr ⟨_, hfmem, rfl⟩
  rw [← hfj]
  exact List.mem_map_of_mem _ hj

theorem count_map_jsUnique (stringify : Json → String) (arr : List Json)
    (s : String) (hs : s ∈ arr.map stringify) :
    ((jsUnique stringify arr).map stringify).count s = 1 :=
  List.count_eq_one_of_mem (jsUnique_map_nodup stringify arr)
    (mem_map_jsUnique stringify arr s hs)

/-- **C8, counterexample.**  The claim says a search whose external
call(s) fail appends no history entry, "in particular … the two-call
mobile search".  But the mobile handler reaches `SearchHistory.create`
whenever a session user is present, even when both external calls were
rejected: one entry with `resultCount 0` is appended. -/
theorem c8_mobile_logs_despite_failed_calls :
    (mobileHandler (fun _ => "") (some ⟨"u1", "alice", "Alice", "user"⟩) "9876543210"
      .failed .failed).history = [⟨"u1", "user", "mobile", "9876543210", 0⟩] := rfl

/-- **C8 (amended).**  The single-call handlers append exactly one entry
when and only when the request carries a session user, the external call
succeeded, and the entry passes the variant's history-schema enums;
failures, timeouts and non-2xx responses log nothing, and when the enums
reject the entry (every variant-B `/api/search/id` request, whose type
`"id"` is missing from that variant's enum) the `create` throws and the
route returns 500 with nothing logged.  The two-call mobile handler
instead appends exactly one entry for every session-carrying request with
a nonempty query, whatever the two calls' outcomes, including both
failing.  The vehicle handlers log only when the provider payload carries
the expected status-200 sub-object — a 2xx response without it logs
nothing — and the IP handler logs only when the provider did not report
failure.  Unauthenticated searches never log in any shape. -/
theorem c8_history_logged_iff
    (v : Variant) (stype : String) (u : SessionUser) (query : String)
    (res r1 r2 : FetchRes) (stringify : Json → String) (raw : JsValue)
    (hq : query ≠ "") :
    (∀ d, res = .ok d →
      historyCreateOk v ⟨u.id, u.role, stype, query, resultCountOf d⟩ = true →
      (searchHandler v stype (some u) query res).history =
        [⟨u.id, u.role, stype, query, resultCountOf d⟩]) ∧
    (∀ d, res = .ok d →
      historyCreateOk v ⟨u.id, u.role, stype, query, resultCountOf d⟩ = false →
      searchHandler v stype (some u) query res =
        ⟨.err 500 "Search failed", [query], []⟩) ∧
    (res = .failed ∨ res = .timedOut ∨ res = .notOk →
      (searchHandler v stype (some u) query res).history = []) ∧
    (searchHandler v stype none query res).history = [] ∧
    (mobileHandler stringify (some u) query r1 r2).history =
      [⟨u.id, u.role, "mobile", query,
        (jsUnique stringify (mergedResults r1 r2)).length⟩] ∧
    (mobileHandler stringify none query r1 r2).history = [] ∧
    (∀ d, challanOf d = none →
      (vehicleChallanHandler (some u) raw (.ok d)).history = []) ∧
    (∀ d c, challanOf d = some c → sanitizeString raw ≠ "" →
      (vehicleChallanHandler (some u) raw (.ok d)).history =
        [⟨u.id, u.role, "vehicle_challan", sanitizeString raw, challanResultCount c⟩]) ∧
    (∀ d, vehicleOf d = none →
      (vehicleInfoHandler (some u) raw (.ok d)).history = []) ∧
    (∀ d v2, vehicleOf d = some v2 → sanitizeString raw ≠ "" →
      (vehicleInfoHandler (some u) raw (.ok d)).history =
        [⟨u.id, u.role, "vehicle_info", sanitizeString raw, 1⟩]) ∧
    (∀ d ip2, ipSearchGate raw = .callProvider ip2 → ipStatusFail d = true →
      (ipSearchHandler (some u) raw (.ok d)).history = []) ∧
    (∀ d ip2, ipSearchGate raw = .callProvider ip2 → ipStatusFail d = false →
      (ipSearchHandler (some u) raw (.ok d)).history =
        [⟨u.id, u.role, "ip", ip2, ipSuccessCount d⟩]) ∧
    (vehicleChallanHandler none raw res).history = [] ∧
    (vehicleInfoHandler none raw res).history = [] ∧
    (ipSearchHandler none raw res).history = [] := by
  refine ⟨?_, ?_, ?_, ?_, ?_, ?_, ?_, ?_, ?_, ?_, ?_, ?_, ?_, ?_, ?_⟩
  · intro d hd he
    simp [searchHandler, hq, hd, he]
  · intro d hd he
    simp [searchHandler, hq, hd, he]
  · intro h
    rcases h with h | h | h <;> simp [searchHandler, hq, h]
  · cases res <;> simp [searchHandler, hq]
  · simp [mobileHandler, hq]
  · simp [mobileHandler, hq]
  · intro d hc
    by_cases hs : sanitizeString raw = ""
    · simp [vehicleChallanHandler, hs]
    · simp [vehicleChallanHandler, hs, hc]
  · intro d c hc hs
    simp [vehicleChallanHandler, hs, hc]
  · intro d hc
    by_cases hs : sanitizeString raw = ""
    · simp [vehicleInfoHandler, hs]
    · simp [vehicleInfoHandler, hs, hc]
  · intro d v2 hc hs
    simp [vehicleInfoHandler, hs, hc]
  · intro d ip2 hg hf
    simp [ipSearchHandler, hg, hf]
  · intro d ip2 hg hf
    simp [ipSearchHandler, hg, hf]
  · by_cases hs : sanitizeString raw = ""
    · cases res <;> simp [vehicleChallanHandler, hs]
    · cases res with
      | ok d => rcases hc : challanOf d with _ | c <;> simp [vehicleChallanHandler, hs, hc]
      | failed => simp [vehicleChallanHandler, hs]
      | timedOut => simp [vehicleChallanHandler, hs]
      | notOk => simp [vehicleChallanHandler, hs]
  · by_cases hs : sanitizeString raw = ""
    · cases res <;> simp [vehicleInfoHandler, hs]
    · cases res with
      | ok d => rcases hc : vehicleOf d with _ | v2 <;> simp [vehicleInfoHandler, hs, hc]
      | failed => simp [vehicleInfoHandler, hs]
      | timedOut => simp [vehicleInfoHandler, hs]
      | notOk => simp [vehicleInfoHandler, hs]
  · rcases hg : ipSearchGate raw with e | ip2
    · simp [ipSearchHandler, hg]
    · cases res with
      | ok d => by_cases hf : ipStatusFail d = true <;>
          simp [ipSearchHandler, hg, hf]
      | failed => simp [ipSearchHandler, hg]
      | timedOut => simp [ipSearchHandler, hg]
      | notOk => simp [ipSearchHandler, hg]

/-- Witness for `c8_history_logged_iff`: an authenticated, externally
successful variant-B `/api/search/id` request returns 500 and logs no
entry, because `"id"` is outside that variant's history-schema enum. -/
theorem c8_history_logged_iff_witness :
    searchHandler .B "id" (some ⟨"a1", "bob", "Bob", "admin"⟩) "12345"
      (.ok (.jarr [])) = ⟨.err 500 "Search failed", ["12345"], []⟩ :=
  (c8_history_logged_iff .B "id" ⟨"a1", "bob", "Bob", "admin"⟩ "12345"
    (.ok (.jarr [])) .failed .failed (fun _ => "") (.vstr "x")
    (by decide)).2.1 (.jarr []) rfl (by decide)

/-- **C9.**  In the mobile search, the merged, deduplicated result list
contains each serialisation value of the merged list exactly once, is a
sublist of the merged list (first occurrences, original order), is what
the handler returns, and the recorded result count is its length. -/
theorem c9_mobile_dedup_exactly_once
    (stringify : Json → String) (u : SessionUser) (query : String)
    (r1 r2 : FetchRes) (hq : query ≠ "") :
    (∀ s ∈ (mergedResults r1 r2).map stringify,
      ((jsUnique stringify (mergedResults r1 r2)).map stringify).count s = 1) ∧
    (jsUnique stringify (mergedResults r1 r2)).Sublist (mergedResults r1 r2) ∧
    (mobileHandler stringify (some u) query r1 r2).history =
      [⟨u.id, u.role, "mobile", query,
        (jsUnique stringify (mergedResults r1 r2)).length⟩] := by
  refine ⟨?_, jsUnique_sublist _ _, by simp [mobileHandler, hq]⟩
  intro s hs
  exact count_map_jsUnique _ _ _ hs

/-- Witness for `c9_mobile_dedup_exactly_once`: two identical object
payloads collapse to a single occurrence of their serialisation. -/
theorem c9_mobile_dedup_exactly_once_witness :
    ((jsUnique (fun _ => "k")
        (mergedResults (.ok (.jobj [])) (.ok (.jobj [])))).map (fun _ => "k")).count
      "k" = 1 :=
  (c9_mobile_dedup_exactly_once (fun _ => "k") ⟨"u1", "alice", "Alice", "user"⟩
    "9876543210" (.ok (.jobj [])) (.ok (.jobj [])) (by decide)).1 "k" (by decide)

set_option maxRecDepth 40000 in
/-- **C10, counterexample.**  The claim's consequence "no query string
longer than 500 characters (after trimming) ever reaches an external API"
fails: the generic single-call search handlers (email / aadhar / pan) and
the mobile handler pass `req.query.query` through unsanitised, so a
501-character query is dispatched to the external API unchanged. -/
theorem c10_generic_search_forwards_unsanitized_query :
    (searchHandler .A "email" none longQuery (.ok (.jarr []))).outbound = [longQuery] ∧
    (jsTrimList longQuery.data).length = 501 := by
  constructor
  · have hne : longQuery ≠ "" := by decide
    simp [searchHandler, hne]
  · decide

theorem sanitizeString_length_le (v : JsValue) : (sanitizeString v).length ≤ 500 := by
  cases v with
  | vstr s =>
    show (String.mk ((jsTrimList s.data).take 500)).length ≤ 500
    have he : (String.mk ((jsTrimList s.data).take 500)).length =
        ((jsTrimList s.data).take 500).length := rfl
    rw [he, List.length_take]
    exact Nat.min_le_left _ _
  | vundef => decide
  | vobj => decide

/-- **C10 (amended).**  The sanitizer maps every non-string to `""` and
every string to its trimmed form truncated to 500 characters, so its
output never exceeds 500 characters; the variant-A login outcome depends
on the password only through its sanitised form, so two password values
with equal sanitised forms log in identically; and the vehicle and IP
handlers dispatch only sanitised (≤ 500 character) queries — but the
generic and mobile search handlers dispatch the raw, unsanitised query. -/
theorem c10_sanitizer_semantics
    (v : JsValue) (s : String) (raw1 raw2 uname lt : JsValue)
    (cfg : SuperCfg) (db : List UserDoc) (cmp : String → String → Bool)
    (hsan : sanitizeString raw1 = sanitizeString raw2) :
    (isStringVal v = false → sanitizeString v = "") ∧
    sanitizeString (.vstr s) = ⟨(jsTrimList s.data).take 500⟩ ∧
    (sanitizeString v).length ≤ 500 ∧
    loginA cfg db cmp ⟨uname, raw1, lt⟩ = loginA cfg db cmp ⟨uname, raw2, lt⟩ ∧
    (∀ q, vehicleOutboundQuery v = some q → q.length ≤ 500) ∧
    (∀ q, ipOutboundQuery v = some q → q.length ≤ 500) := by
  refine ⟨?_, rfl, sanitizeString_length_le v, ?_, ?_, ?_⟩
  · intro h
    cases v with
    | vstr s' => simp [isStringVal] at h
    | vundef => rfl
    | vobj => rfl
  · cases raw1 with
    | vstr s1 =>
      cases raw2 with
      | vstr s2 =>
        simp only [loginA, isStringVal]
        rw [show sanitizeString (JsValue.vstr s1) = sanitizeString (JsValue.vstr s2) from hsan]
      | vundef =>
        have h0 : sanitizeString (JsValue.vstr s1) = "" := hsan
        have h1 : sanitizeString JsValue.vundef = "" := rfl
        simp [loginA, h0, h1]
      | vobj =>
        have h0 : sanitizeString (JsValue.vstr s1) = "" := hsan
        have h1 : sanitizeString JsValue.vobj = "" := rfl
        simp [loginA, h0, h1]
    | vundef =>
      cases raw2 with
      | vstr s2 =>
        have h0 : sanitizeString (JsValue.vstr s2) = "" := hsan.symm
        have h1 : sanitizeString JsValue.vundef = "" := rfl
        simp [loginA, h0, h1]
      | vundef => rfl
      | vobj => rfl
    | vobj =>
      cases raw2 with
      | vstr s2 =>
        have h0 : sanitizeString (JsValue.vstr s2) = "" := hsan.symm
        have h1 : sanitizeString JsValue.vobj = "" := rfl
        simp [loginA, h0, h1]
      | vundef => rfl
      | vobj => rfl
  · intro q hq2
    unfold vehicleOutboundQuery at hq2
    by_cases he : sanitizeString v = ""
    · simp [he] at hq2
    · simp only [he, if_false] at hq2
      have hveq : sanitizeString v = q := Option.some.inj hq2
      rw [← hveq]
      exact sanitizeString_length_le v
  · intro q hq2
    unfold ipOutboundQuery ipSearchGate at hq2
    by_cases he : sanitizeString v = ""
    · simp [he] at hq2
    · by_cases hm : (ipv4Match (sanitizeString v) || ipv6Match (sanitizeString v)) = false
      · simp [he, hm] at hq2
      · simp only [he, hm, if_false] at hq2
        simp at hq2
        rw [← hq2]
        exact sanitizeString_length_le v

/-- Witness for `c10_sanitizer_semantics`: the passwords `" pw "` and
`"pw"` sanitise identically and produce the same login outcome. -/
theorem c10_sanitizer_semantics_witness :
    loginA ⟨"r", "q"⟩ [] (fun _ _ => false)
      ⟨.vstr "alice", .vstr " pw ", .vstr "user"⟩ =
    loginA ⟨"r", "q"⟩ [] (fun _ _ => false)
      ⟨.vstr "alice", .vstr "pw", .vstr "user"⟩ :=
  (c10_sanitizer_semantics (.vstr "x") "y" (.vstr " pw ") (.vstr "pw")
    (.vstr "alice") (.vstr "user") ⟨"r", "q"⟩ [] (fun _ _ => false)
    (by decide)).2.2.2.1

end SecurePortal
